import Mathlib

/-!
Verification of the `rkz` Z-factor calculator.

Two shallow embeddings are developed:

* `Rkz`: the equation-of-state core (`eos.rs`, `rk.rs`) over the real
  numbers.  `f64` arithmetic is modelled by exact real arithmetic,
  `powf` by `Real.rpow` and `sqrt` by `Real.sqrt`.  The external cubic
  solver (the `roots` crate) is modelled by an abstract `find` function
  returning a `Roots` value; theorems about root selection take the
  crate's contract (the returned values are exactly the real roots, in
  ascending order) as a hypothesis.  A `panic!` is modelled as `none`.

* `RkzParse`: the mixture-specification parser (`gas.rs`, `util.rs`)
  over the rational numbers.  Strings are modelled as `List Char`,
  `f64` fractions by exact `ℚ` values, and `f64::EPSILON` by `2⁻⁵²`.
  A `panic!` (`unreachable!`) is modelled by the dedicated result
  `PRes.panicked`.  Because the model computes fractions exactly where
  the program rounds to `f64`, any claim that hinges on behaviour at
  the 1 ± EPSILON boundary is settled only at inputs where the exact
  and the correctly-rounded IEEE-754 evaluations agree on every
  comparison the code performs; the agreement is spelled out at the
  theorem concerned.
-/

namespace Rkz

/-- Gas constant, from `eos.rs` / `rk.rs`: `const R: f64 = 8.31446262`. -/
noncomputable def R : ℝ := 8.31446262

/-- The four equations of state, from `enum Eos` in `eos.rs`. -/
inductive Eos where
  | vanDerWaals
  | redlichKwong
  | soaveRedlichKwong
  | pengRobinson

/-- A pure substance, from `struct PureGas` in `gas.rs` (the textual
fields are irrelevant to the equation-of-state core and omitted here;
the parser model `RkzParse.PureGas` keeps them). -/
structure PureGas where
  tc : ℝ
  pc : ℝ
  w : ℝ

/-- A gas mixture, from `struct GasMixture` in `gas.rs`: an ordered
list of (molar fraction, substance) pairs. -/
structure GasMixture where
  comps : List (ℝ × PureGas)

/-- A gas, from `enum Gas` in `gas.rs`. -/
inductive Gas where
  | Pure (g : PureGas)
  | Mixture (m : GasMixture)

open Classical in
/-- `impl EosGas for PureGas { fn a }` from `eos.rs` lines 82-105. -/
noncomputable def PureGas.a (g : PureGas) (eos : Eos) (t : ℝ) : ℝ :=
  match eos with
  | .vanDerWaals => 27 * R * R * g.tc * g.tc / (64 * g.pc)
  | .redlichKwong => 0.42748023 * R * R * g.tc ^ (2.5 : ℝ) / g.pc
  | .soaveRedlichKwong =>
      let m := 0.48 + 1.574 * g.w - 0.176 * g.w * g.w
      let alpha := 1 + m * (1 - Real.sqrt (t / g.tc))
      let alpha2 := alpha * alpha
      alpha2 * 0.42748023 * R * R * g.tc * g.tc / g.pc
  | .pengRobinson =>
      let m :=
        if g.w ≤ 0.491 then
          0.37464 + 1.56226 * g.w - 0.26992 * g.w * g.w
        else
          0.379642 + 1.487503 * g.w - 0.164423 * g.w * g.w
            - 0.016666 * g.w * g.w * g.w
      let alpha := 1 + m * (1 - Real.sqrt (t / g.tc))
      let alpha2 := alpha * alpha
      alpha2 * 0.45724 * R * R * g.tc * g.tc / g.pc

/-- `impl EosGas for PureGas { fn b }` from `eos.rs` lines 106-112. -/
noncomputable def PureGas.b (g : PureGas) (eos : Eos) : ℝ :=
  match eos with
  | .vanDerWaals => R * g.tc / (8 * g.pc)
  | .redlichKwong | .soaveRedlichKwong => 0.08664035 * R * g.tc / g.pc
  | .pengRobinson => 0.0778 * R * g.tc / g.pc

/-- `impl EosGas for GasMixture { fn a }` from `eos.rs` lines 116-126:
the nested accumulation loop `res += xᵢ·xⱼ·√(aᵢ·aⱼ)`. -/
noncomputable def GasMixture.a (m : GasMixture) (eos : Eos) (t : ℝ) : ℝ :=
  m.comps.foldl
    (fun res i =>
      m.comps.foldl
        (fun res j => res + i.1 * j.1 * Real.sqrt (i.2.a eos t * j.2.a eos t))
        res)
    0

/-- `impl EosGas for GasMixture { fn b }` from `eos.rs` lines 128-134:
the accumulation loop `res += xᵢ·bᵢ`. -/
noncomputable def GasMixture.b (m : GasMixture) (eos : Eos) : ℝ :=
  m.comps.foldl (fun res i => res + i.1 * i.2.b eos) 0

/-- `impl EosGas for Gas { fn a }` from `eos.rs` lines 138-143. -/
noncomputable def Gas.a (g : Gas) (eos : Eos) (t : ℝ) : ℝ :=
  match g with
  | .Pure g => g.a eos t
  | .Mixture m => m.a eos t

/-- `impl EosGas for Gas { fn b }` from `eos.rs` lines 144-149. -/
noncomputable def Gas.b (g : Gas) (eos : Eos) : ℝ :=
  match g with
  | .Pure g => g.b eos
  | .Mixture m => m.b eos

/-- Result of the external cubic solver `roots::find_roots_cubic`
(`Roots` enum of the `roots` crate, restricted to the cases reachable
for a cubic). -/
inductive Roots where
  | no
  | one (r : ℝ)
  | two (r0 r1 : ℝ)
  | three (r0 r1 r2 : ℝ)

/-- The list of values carried by a `Roots` answer. -/
def Roots.elems : Roots → List ℝ
  | .no => []
  | .one r => [r]
  | .two r0 r1 => [r0, r1]
  | .three r0 r1 r2 => [r0, r1, r2]

/-- The `roots` crate's contract that root arrays are sorted ascending. -/
def Roots.Sorted : Roots → Prop
  | .no => True
  | .one _ => True
  | .two r0 r1 => r0 ≤ r1
  | .three r0 r1 r2 => r0 ≤ r1 ∧ r1 ≤ r2

/-- The root-selection `match` of `EosGas::z`, `eos.rs` lines 70-77:
`No` panics (modelled as `none`), otherwise the maximum of the returned
values is taken. -/
noncomputable def selectRoot : Roots → Option ℝ
  | .no => none
  | .one r => some r
  | .two r0 r1 => some (max r0 r1)
  | .three r0 r1 r2 => some (max (max r0 r1) r2)

/-- The cubic coefficients `(a3, a2, a1, a0)` formed inside
`EosGas::z`, `eos.rs` lines 22-68. -/
noncomputable def Gas.zCubic (g : Gas) (eos : Eos) (p t : ℝ) : ℝ × ℝ × ℝ × ℝ :=
  match eos with
  | .vanDerWaals =>
      let a := g.a eos t * p / (R * R * t * t)
      let b := g.b eos * p / (R * t)
      (1, -b - 1, a, -a * b)
  | .redlichKwong =>
      let a := g.a eos t * p / (R * R * t ^ (2.5 : ℝ))
      let b := g.b eos * p / (R * t)
      (1, -1, a - b * b - b, -a * b)
  | .soaveRedlichKwong =>
      let a := g.a eos t * p / (R * R * t * t)
      let b := g.b eos * p / (R * t)
      (1, -1, a - b * b - b, -a * b)
  | .pengRobinson =>
      let a := g.a eos t * p / (R * R * t * t)
      let b := g.b eos * p / (R * t)
      (1, b - 1, -3 * b * b - 2 * b + a, b * b * b + b * b - a * b)

/-- `EosGas::z` from `eos.rs` lines 22-78, parameterised by the
external cubic solver `find`. -/
noncomputable def Gas.z (find : ℝ → ℝ → ℝ → ℝ → Roots) (g : Gas) (eos : Eos)
    (p t : ℝ) : Option ℝ :=
  let c := g.zCubic eos p t
  selectRoot (find c.1 c.2.1 c.2.2.1 c.2.2.2)

/-- `const RK_A` from `rk.rs`. -/
noncomputable def RK_A : ℝ := 0.42748023

/-- `const RK_B` from `rk.rs`. -/
noncomputable def RK_B : ℝ := 0.08664035

/-- `impl RkGas for PureGas { fn a_const }` from `rk.rs` lines 42-45. -/
noncomputable def PureGas.a_const (g : PureGas) : ℝ :=
  RK_A * R ^ 2 * g.tc ^ (2.5 : ℝ) / g.pc

/-- `impl RkGas for PureGas { fn b_const }` from `rk.rs` lines 46-48. -/
noncomputable def PureGas.b_const (g : PureGas) : ℝ :=
  RK_B * R * g.tc / g.pc

/-- `impl RkGas for GasMixture { fn a_const }` from `rk.rs` lines 52-62. -/
noncomputable def GasMixture.a_const (m : GasMixture) : ℝ :=
  m.comps.foldl
    (fun res i =>
      m.comps.foldl
        (fun res j => res + i.1 * j.1 * Real.sqrt (i.2.a_const * j.2.a_const))
        res)
    0

/-- `impl RkGas for GasMixture { fn b_const }` from `rk.rs` lines 64-70. -/
noncomputable def GasMixture.b_const (m : GasMixture) : ℝ :=
  m.comps.foldl (fun res i => res + i.1 * i.2.b_const) 0

/-- `impl RkGas for Gas { fn a_const }` from `rk.rs` lines 74-79. -/
noncomputable def Gas.a_const (g : Gas) : ℝ :=
  match g with
  | .Pure g => g.a_const
  | .Mixture m => m.a_const

/-- `impl RkGas for Gas { fn b_const }` from `rk.rs` lines 80-85. -/
noncomputable def Gas.b_const (g : Gas) : ℝ :=
  match g with
  | .Pure g => g.b_const
  | .Mixture m => m.b_const

/-- `RkGas::a` from `rk.rs` lines 15-17. -/
noncomputable def Gas.rkA (g : Gas) (p t : ℝ) : ℝ :=
  g.a_const * p / (R ^ 2 * t ^ (2.5 : ℝ))

/-- `RkGas::b` from `rk.rs` lines 19-21. -/
noncomputable def Gas.rkB (g : Gas) (p t : ℝ) : ℝ :=
  g.b_const * p / (R * t)

/-- The root-selection `match` of `RkGas::z`, `rk.rs` lines 32-38:
`No` panics (modelled as `none`), otherwise the last element of the
(sorted) root array is taken. -/
noncomputable def selectRootRk : Roots → Option ℝ
  | .no => none
  | .one r => some r
  | .two _ r1 => some r1
  | .three _ _ r2 => some r2

/-- `RkGas::z` from `rk.rs` lines 23-39, parameterised by the external
cubic solver `find`. -/
noncomputable def Gas.zRk (find : ℝ → ℝ → ℝ → ℝ → Roots) (g : Gas)
    (p t : ℝ) : Option ℝ :=
  let a := g.rkA p t
  let b := g.rkB p t
  selectRootRk (find 1 (-1) (a - b * b - b) (-a * b))

/-- `z` is a solution of the monic cubic `Z³ + a2·Z² + a1·Z + a0 = 0`. -/
def IsZRoot (a2 a1 a0 z : ℝ) : Prop :=
  z ^ 3 + a2 * z ^ 2 + a1 * z + a0 = 0

end Rkz

namespace RkzParse

/-- A pure substance, from `struct PureGas` in `gas.rs`; in the parser
model the numeric critical properties are rationals. -/
structure PureGas where
  id : List Char
  name : List Char
  tc : ℚ
  pc : ℚ
  w : ℚ
  deriving DecidableEq

/-- A gas mixture, from `struct GasMixture` in `gas.rs`. -/
structure GasMixture where
  comps : List (ℚ × PureGas)
  deriving DecidableEq

/-- A gas, from `enum Gas` in `gas.rs`. -/
inductive Gas where
  | Pure (g : PureGas)
  | Mixture (m : GasMixture)
  deriving DecidableEq

/-- Result of a fallible computation that may also hit a Rust `panic!`
or `unreachable!` (modelled by the dedicated value `panicked`). -/
inductive PRes (α : Type) where
  | ok (a : α)
  | err (msg : List Char)
  | panicked
  deriving DecidableEq

/-- Modelled from the spec: the substance registry (`gases.rs`, the
"static lookup table of reference substances", an external collaborator
per §1 and §2) is not among the sources.  The spec only requires a
read-only map from an id to critical properties {Tc, Pc, w} (§2, §6).
The ids listed are those the spec and the CLI help text use in
examples; the Hydrogen constants are the unique values (to the shown
precision) reproducing the §8 reference Z-factors, and the parsing
claims depend only on the id keys. -/
def GASES : List PureGas :=
  [⟨"H2".data, "Hydrogen".data, 33, 1290000, -216/1000⟩,
   ⟨"He".data, "Helium".data, 5195/1000, 227500, -39/100⟩,
   ⟨"N2".data, "Nitrogen".data, 126192/1000, 3395800, 372/10000⟩,
   ⟨"O2".data, "Oxygen".data, 154581/1000, 5043000, 222/10000⟩,
   ⟨"Ar".data, "Argon".data, 150687/1000, 4863000, -29/10000⟩,
   ⟨"CO2".data, "Carbon dioxide".data, 304128/1000, 7377300, 2239/10000⟩]

/-- The registry's Nitrogen entry. -/
def nitrogen : PureGas := ⟨"N2".data, "Nitrogen".data, 126192/1000, 3395800, 372/10000⟩

/-- The registry's Oxygen entry. -/
def oxygen : PureGas := ⟨"O2".data, "Oxygen".data, 154581/1000, 5043000, 222/10000⟩

/-- `find_gas` from `gas.rs` lines 6-8. -/
def find_gas (id : List Char) : Option PureGas :=
  GASES.find? (fun g => g.id = id)

/-- Rust's `str::split(sep)`: splits at every occurrence of `sep`,
keeping empty pieces; the result is never empty. -/
def splitChar (sep : Char) : List Char → List (List Char)
  | [] => [[]]
  | c :: rest =>
      match splitChar sep rest with
      | [] => [[]]
      | t :: ts => if c = sep then [] :: t :: ts else (c :: t) :: ts

/-- Numeric value of a digit run, most significant first. -/
def digitsVal (l : List Char) : ℕ :=
  l.foldl (fun a c => a * 10 + (c.toNat - '0'.toNat)) 0

/-- An unsigned decimal literal `⟨digits⟩` or `⟨digits⟩.⟨digits⟩` (at
least one digit in total), as a rational. -/
def parseDecimal (l : List Char) : Option ℚ :=
  match splitChar '.' l with
  | [ip] =>
      if ip ≠ [] ∧ ip.all Char.isDigit then some (digitsVal ip) else none
  | [ip, fp] =>
      if (ip ++ fp) ≠ [] ∧ (ip ++ fp).all Char.isDigit then
        some (digitsVal ip + digitsVal fp / 10 ^ fp.length)
      else none
  | _ => none

/-- An optionally signed decimal literal, as a rational. -/
def parseSigned (l : List Char) : Option ℚ :=
  match l with
  | '-' :: rest => (parseDecimal rest).map (fun q => -q)
  | '+' :: rest => parseDecimal rest
  | _ => parseDecimal l

/-- The error message of `util::parse_num`:
`format!("Can't parse {} as a number", input)`. -/
def parseNumMsg (input : List Char) : List Char :=
  "Can't parse ".data ++ input ++ " as a number".data

/-- `util::parse_num` from `util.rs`.  Rust delegates to the standard
library's `f64` parser; it is modelled here exactly over `ℚ` on
optionally-signed decimal literals, the only numeral form the spec's
grammar admits (§6: "`fraction` is a decimal number"); exponent,
`inf` and `NaN` forms are rejected as unparsable instead.  The model
returns the literal's exact value where Rust rounds it to the nearest
`f64`; theorems whose truth could depend on that sub-ulp difference
are stated only at inputs where both readings drive the program
through the same branches. -/
def parse_num (input : List Char) : PRes ℚ :=
  match parseSigned input with
  | some q => .ok q
  | none => .err (parseNumMsg input)

/-- The sentinel `const NO_FRAC: f64 = -1f64` from `gas.rs`. -/
def NO_FRAC : ℚ := -1

/-- `f64::EPSILON = 2⁻⁵²`. -/
def EPSILON : ℚ := 1 / 2 ^ 52

/-- The error message `"The requested gas is not referenced"`. -/
def gasNotRefMsg : List Char := "The requested gas is not referenced".data

/-- The error message
`format!("\"{}\" from \"{}\" is invalid gas spec", comp, input)`. -/
def invalidSpecMsg (comp input : List Char) : List Char :=
  '"' :: comp ++ '"' :: " from ".data ++ '"' :: input
    ++ '"' :: " is invalid gas spec".data

/-- The error message `"molar fraction cannot be negative"`. -/
def negFracMsg : List Char := "molar fraction cannot be negative".data

/-- The error message `"total molar fraction is too high"`. -/
def tooHighMsg : List Char := "total molar fraction is too high".data

/-- The error message `"total molar fraction is too low"`. -/
def tooLowMsg : List Char := "total molar fraction is too low".data

/-- One iteration of the term loop of `Gas::from_string`, `gas.rs`
lines 72-94: split the term on `%`, reject more than one `%`, look up
the substance named by the last piece, and parse the explicit
percentage when present. -/
def parseComp (input comp : List Char) : PRes (ℚ × PureGas) :=
  match splitChar '%' comp with
  | [] => .panicked
  | [g] =>
      match find_gas g with
      | none => .err gasNotRefMsg
      | some gas => .ok (NO_FRAC, gas)
  | [f, g] =>
      match find_gas g with
      | none => .err gasNotRefMsg
      | some gas =>
          match parse_num f with
          | .err e => .err e
          | .panicked => .panicked
          | .ok frac =>
              if frac ≤ 0 then .err negFracMsg
              else .ok (frac / 100, gas)
  | _ => .err (invalidSpecMsg comp input)

/-- The term loop of `Gas::from_string`, `gas.rs` lines 70-94, with its
early returns. -/
def parseComps (input : List Char) : List (List Char) → PRes (List (ℚ × PureGas))
  | [] => .ok []
  | c :: rest =>
      match parseComp input c with
      | .err e => .err e
      | .panicked => .panicked
      | .ok cg =>
          match parseComps input rest with
          | .err e => .err e
          | .panicked => .panicked
          | .ok l => .ok (cg :: l)

/-- The `(total_frac, num_no_frac)` accumulation of `Gas::from_string`,
`gas.rs` lines 96-107.  The sum is exact where the program adds `f64`
values; as with `parse_num`, boundary-sensitive theorems are stated
only at inputs where exact and rounded summation agree on every
comparison the validation makes. -/
def totals (cs : List (ℚ × PureGas)) : ℚ × ℕ :=
  cs.foldl
    (fun acc c => if c.1 = NO_FRAC then (acc.1, acc.2 + 1) else (acc.1 + c.1, acc.2))
    (0, 0)

/-- `Gas::from_string` from `gas.rs` lines 51-124. -/
def Gas.from_string (input : List Char) : PRes Gas :=
  match splitChar '+' input with
  | [] => .panicked
  | [c] =>
      match find_gas c with
      | none => .err gasNotRefMsg
      | some g => .ok (Gas.Pure g)
  | c0 :: c1 :: crest =>
      match parseComps input (c0 :: c1 :: crest) with
      | .err e => .err e
      | .panicked => .panicked
      | .ok cs =>
          let total_frac := (totals cs).1
          let num_no_frac := (totals cs).2
          if total_frac > 1 ∨ (|total_frac - 1| < EPSILON ∧ num_no_frac > 0) then
            .err tooHighMsg
          else if total_frac < 1 ∧ num_no_frac = 0 then
            .err tooLowMsg
          else
            let missing := (1 - total_frac) / (num_no_frac : ℚ)
            .ok (Gas.Mixture
              ⟨cs.map (fun c => if c.1 = NO_FRAC then (missing, c.2) else c)⟩)

/-- The error taxonomy of §4.1/§7: unknown substance, malformed term
syntax (more than one `%`, or an unparsable fraction literal),
non-positive explicit fraction, and the two total-fraction errors. -/
def TaxonomyMsg (m : List Char) : Prop :=
  m = gasNotRefMsg ∨ m = negFracMsg ∨ m = tooHighMsg ∨ m = tooLowMsg ∨
    (∃ c i, m = invalidSpecMsg c i) ∨ (∃ s, m = parseNumMsg s)

end RkzParse


/-! ## Helper lemmas -/

namespace Rkz

theorem foldl_add_sum {α : Type} (f : α → ℝ) :
    ∀ (l : List α) (r : ℝ), l.foldl (fun res x => res + f x) r = r + (l.map f).sum := by
  intro l
  induction l with
  | nil => intro r; simp
  | cons a l ih => intro r; simp [ih, add_assoc]

theorem map_sum_fin {α : Type} (f : α → ℝ) :
    ∀ l : List α, (l.map f).sum = ∑ i : Fin l.length, f (l.get i) := by
  intro l
  induction l with
  | nil => simp
  | cons a l ih =>
      rw [List.map_cons, List.sum_cons, ih]
      rw [show (∑ i : Fin (a :: l).length, f ((a :: l).get i))
            = ∑ i : Fin (l.length + 1), f ((a :: l).get i) from rfl]
      rw [Fin.sum_univ_succ]
      simp

/-- The §4.2 per-substance parameter table of the spec, stated
literally (R = 8.31446262; `a` and `b` per EOS variant, with the
SRK/PR alpha-correction and the PR piecewise `m`). -/
def ParamTableSpec (g : PureGas) (t : ℝ) : Prop :=
  g.a .vanDerWaals t = 27 * R ^ 2 * g.tc ^ 2 / (64 * g.pc) ∧
  g.b .vanDerWaals = R * g.tc / (8 * g.pc) ∧
  g.a .redlichKwong t = 0.42748023 * R ^ 2 * g.tc ^ (2.5 : ℝ) / g.pc ∧
  g.b .redlichKwong = 0.08664035 * R * g.tc / g.pc ∧
  g.a .soaveRedlichKwong t =
    (1 + (0.48 + 1.574 * g.w - 0.176 * g.w ^ 2) * (1 - Real.sqrt (t / g.tc))) ^ 2
      * (0.42748023 * R ^ 2 * g.tc ^ 2 / g.pc) ∧
  g.b .soaveRedlichKwong = 0.08664035 * R * g.tc / g.pc ∧
  (g.w ≤ 0.491 →
    g.a .pengRobinson t =
      (1 + (0.37464 + 1.56226 * g.w - 0.26992 * g.w ^ 2) * (1 - Real.sqrt (t / g.tc))) ^ 2
        * (0.45724 * R ^ 2 * g.tc ^ 2 / g.pc)) ∧
  (0.491 < g.w →
    g.a .pengRobinson t =
      (1 + (0.379642 + 1.487503 * g.w - 0.164423 * g.w ^ 2 - 0.016666 * g.w ^ 3)
        * (1 - Real.sqrt (t / g.tc))) ^ 2
        * (0.45724 * R ^ 2 * g.tc ^ 2 / g.pc)) ∧
  g.b .pengRobinson = 0.0778 * R * g.tc / g.pc

/-- The §4.2 reduced-parameter and cubic-coefficient table of the
spec, stated literally for each variant. -/
def CubicTableSpec (g : Gas) (p t : ℝ) : Prop :=
  (let A := g.a .vanDerWaals t * p / (R ^ 2 * t ^ 2)
   let B := g.b .vanDerWaals * p / (R * t)
   g.zCubic .vanDerWaals p t = (1, -B - 1, A, -(A * B))) ∧
  (let A := g.a .redlichKwong t * p / (R ^ 2 * t ^ (2.5 : ℝ))
   let B := g.b .redlichKwong * p / (R * t)
   g.zCubic .redlichKwong p t = (1, -1, A - B ^ 2 - B, -(A * B))) ∧
  (let A := g.a .soaveRedlichKwong t * p / (R ^ 2 * t ^ 2)
   let B := g.b .soaveRedlichKwong * p / (R * t)
   g.zCubic .soaveRedlichKwong p t = (1, -1, A - B ^ 2 - B, -(A * B))) ∧
  (let A := g.a .pengRobinson t * p / (R ^ 2 * t ^ 2)
   let B := g.b .pengRobinson * p / (R * t)
   g.zCubic .pengRobinson p t = (1, B - 1, -3 * B ^ 2 - 2 * B + A, B ^ 3 + B ^ 2 - A * B))

end Rkz

/-! ## C1 -/

/-- C1: for every pure substance with positive critical temperature
and pressure, and every temperature, the per-substance parameters `a`
and `b` of `eos.rs` equal the spec's §4.2 table for all four EOS
variants. -/
theorem pure_eos_params_match_table (g : Rkz.PureGas)
    (htc : 0 < g.tc) (hpc : 0 < g.pc) (t : ℝ) : Rkz.ParamTableSpec g t := by
  clear htc hpc
  refine ⟨by simp only [Rkz.PureGas.a]; ring, rfl,
    by simp only [Rkz.PureGas.a]; ring, rfl,
    by simp only [Rkz.PureGas.a]; ring, rfl,
    fun h => ?_, fun h => ?_, rfl⟩
  · simp only [Rkz.PureGas.a, if_pos h]; ring
  · simp only [Rkz.PureGas.a, if_neg (not_le.mpr h)]; ring

/-- Witness for C1 at the substance (Tc, Pc, w) = (1, 1, 0) and T = 1. -/
theorem pure_eos_params_match_table_witness :
    (0 : ℝ) < 1 ∧ Rkz.ParamTableSpec ⟨1, 1, 0⟩ 1 :=
  ⟨by norm_num, pure_eos_params_match_table ⟨1, 1, 0⟩ (by norm_num) (by norm_num) 1⟩

/-! ## C2 -/

/-- C2: for every gas, pressure and temperature, the reduced
parameters A and B and the monic cubic coefficients formed inside
`EosGas::z` equal the spec's §4.2 variant table. -/
theorem z_cubic_matches_table (g : Rkz.Gas) (p t : ℝ) : Rkz.CubicTableSpec g p t := by
  refine ⟨?_, ?_, ?_, ?_⟩ <;>
    · simp only [Rkz.Gas.zCubic, Prod.mk.injEq]
      and_intros <;> first | trivial | ring

/-! ## C4 -/

/-- C4: the mixture co-volume is the linear mix `Σᵢ xᵢ·bᵢ`, the
mixture attraction is the quadratic rule `Σᵢ Σⱼ xᵢ·xⱼ·√(aᵢ·aⱼ)` with
no binary interaction parameters, and for a `Pure` composition `a` and
`b` are the pure substance's own values. -/
theorem mixture_mixing_rules (m : Rkz.GasMixture) (e : Rkz.Eos) (t : ℝ) :
    m.a e t =
      ∑ i : Fin m.comps.length, ∑ j : Fin m.comps.length,
        (m.comps.get i).1 * (m.comps.get j).1 *
          Real.sqrt ((m.comps.get i).2.a e t * (m.comps.get j).2.a e t) ∧
    m.b e = ∑ i : Fin m.comps.length, (m.comps.get i).1 * (m.comps.get i).2.b e ∧
    ∀ g : Rkz.PureGas, (Rkz.Gas.Pure g).a e t = g.a e t ∧ (Rkz.Gas.Pure g).b e = g.b e := by
  refine ⟨?_, ?_, fun g => ⟨rfl, rfl⟩⟩
  · show m.comps.foldl _ 0 = _
    simp only [Rkz.foldl_add_sum]
    simp only [Rkz.map_sum_fin, zero_add]
  · show m.comps.foldl _ 0 = _
    rw [Rkz.foldl_add_sum (fun i => i.1 * i.2.b e) m.comps 0, Rkz.map_sum_fin, zero_add]

/-! ## C3 -/

/-- C3: given the root-selection step a correct enumeration of the
real roots of the monic cubic, `z` fails (the `panic!`, modelled as
`none`) exactly when there are zero real roots, and any returned value
is the maximum of the real roots. -/
theorem root_selection_max_or_fail (a2 a1 a0 : ℝ) (rs : Rkz.Roots)
    (hrs : ∀ z : ℝ, z ∈ rs.elems ↔ Rkz.IsZRoot a2 a1 a0 z) :
    (Rkz.selectRoot rs = none ↔ ¬∃ z, Rkz.IsZRoot a2 a1 a0 z) ∧
    ∀ m, Rkz.selectRoot rs = some m →
      Rkz.IsZRoot a2 a1 a0 m ∧ ∀ z, Rkz.IsZRoot a2 a1 a0 z → z ≤ m := by
  cases rs with
  | no =>
      refine ⟨iff_of_true rfl ?_, fun m h => nomatch h⟩
      rintro ⟨z, hz⟩
      simpa [Rkz.Roots.elems] using (hrs z).mpr hz
  | one r =>
      refine ⟨iff_of_false (by simp [Rkz.selectRoot])
        (not_not_intro ⟨r, (hrs r).mp (by simp [Rkz.Roots.elems])⟩), ?_⟩
      intro m h
      obtain rfl : m = r := by simpa [Rkz.selectRoot] using h.symm
      refine ⟨(hrs m).mp (by simp [Rkz.Roots.elems]), fun z hz => ?_⟩
      have hm := (hrs z).mpr hz
      simp only [Rkz.Roots.elems, List.mem_singleton] at hm
      exact hm.le
  | two r0 r1 =>
      refine ⟨iff_of_false (by simp [Rkz.selectRoot])
        (not_not_intro ⟨r0, (hrs r0).mp (by simp [Rkz.Roots.elems])⟩), ?_⟩
      intro m h
      obtain rfl : max r0 r1 = m := by simpa [Rkz.selectRoot] using h
      constructor
      · rcases max_cases r0 r1 with ⟨he, _⟩ | ⟨he, _⟩ <;>
          · rw [he]; exact (hrs _).mp (by simp [Rkz.Roots.elems])
      · intro z hz
        have hm := (hrs z).mpr hz
        simp only [Rkz.Roots.elems, List.mem_cons, List.mem_singleton,
          List.not_mem_nil, or_false] at hm
        rcases hm with rfl | rfl
        · exact le_max_left _ _
        · exact le_max_right _ _
  | three r0 r1 r2 =>
      refine ⟨iff_of_false (by simp [Rkz.selectRoot])
        (not_not_intro ⟨r0, (hrs r0).mp (by simp [Rkz.Roots.elems])⟩), ?_⟩
      intro m h
      obtain rfl : max (max r0 r1) r2 = m := by simpa [Rkz.selectRoot] using h
      constructor
      · rcases max_cases (max r0 r1) r2 with ⟨he, _⟩ | ⟨he, _⟩
        · rw [he]
          rcases max_cases r0 r1 with ⟨he2, _⟩ | ⟨he2, _⟩ <;>
            · rw [he2]; exact (hrs _).mp (by simp [Rkz.Roots.elems])
        · rw [he]; exact (hrs _).mp (by simp [Rkz.Roots.elems])
      · intro z hz
        have hm := (hrs z).mpr hz
        simp only [Rkz.Roots.elems, List.mem_cons, List.mem_singleton,
          List.not_mem_nil, or_false] at hm
        rcases hm with rfl | rfl | rfl
        · exact le_max_of_le_left (le_max_left _ _)
        · exact le_max_of_le_left (le_max_right _ _)
        · exact le_max_right _ _

/-- Witness for C3 on the cubic `Z³ − Z = 0` with root list
`[-1, 0, 1]`: selection succeeds and returns the maximum root `1`. -/
theorem root_selection_max_or_fail_witness :
    (∀ z : ℝ, z ∈ (Rkz.Roots.three (-1) 0 1).elems ↔ Rkz.IsZRoot 0 (-1) 0 z) ∧
    (Rkz.selectRoot (Rkz.Roots.three (-1) 0 1) = none ↔
      ¬∃ z, Rkz.IsZRoot 0 (-1) 0 z) ∧
    ∀ m, Rkz.selectRoot (Rkz.Roots.three (-1) 0 1) = some m →
      Rkz.IsZRoot 0 (-1) 0 m ∧ ∀ z, Rkz.IsZRoot 0 (-1) 0 z → z ≤ m := by
  have h : ∀ z : ℝ, z ∈ (Rkz.Roots.three (-1) 0 1).elems ↔ Rkz.IsZRoot 0 (-1) 0 z := by
    intro z
    simp only [Rkz.Roots.elems, Rkz.IsZRoot, List.mem_cons, List.mem_singleton,
      List.not_mem_nil, or_false]
    constructor
    · rintro (rfl | rfl | rfl) <;> norm_num
    · intro hz
      have hf : z * ((z - 1) * (z + 1)) = 0 := by linear_combination hz
      rcases mul_eq_zero.mp hf with h0 | h12
      · exact Or.inr (Or.inl h0)
      · rcases mul_eq_zero.mp h12 with h1 | h2
        · exact Or.inr (Or.inr (by linarith))
        · exact Or.inl (by linarith)
  exact ⟨h, (root_selection_max_or_fail 0 (-1) 0 _ h).1,
    (root_selection_max_or_fail 0 (-1) 0 _ h).2⟩

/-! ## C10 -/

namespace Rkz

theorem pure_a_const_eq (g : PureGas) (t : ℝ) : g.a .redlichKwong t = g.a_const := by
  simp only [PureGas.a_const, PureGas.a, RK_A]; ring

theorem pure_b_const_eq (g : PureGas) : g.b .redlichKwong = g.b_const := by
  simp only [PureGas.b_const, PureGas.b, RK_B]

theorem a_const_eq (g : Gas) (t : ℝ) : g.a_const = g.a .redlichKwong t := by
  cases g with
  | Pure g => exact (pure_a_const_eq g t).symm
  | Mixture m =>
      show m.a_const = m.a .redlichKwong t
      simp only [GasMixture.a_const, GasMixture.a, pure_a_const_eq]

theorem b_const_eq (g : Gas) : g.b_const = g.b .redlichKwong := by
  cases g with
  | Pure g => exact (pure_b_const_eq g).symm
  | Mixture m =>
      show m.b_const = m.b .redlichKwong
      simp only [GasMixture.b_const, GasMixture.b, pure_b_const_eq]

theorem selectRootRk_eq_selectRoot (rs : Roots) (h : rs.Sorted) :
    selectRootRk rs = selectRoot rs := by
  cases rs with
  | no => rfl
  | one r => rfl
  | two r0 r1 =>
      have h' : r0 ≤ r1 := h
      simp only [selectRootRk, selectRoot, max_eq_right h']
  | three r0 r1 r2 =>
      obtain ⟨h1, h2⟩ := (h : r0 ≤ r1 ∧ r1 ≤ r2)
      simp only [selectRootRk, selectRoot, max_eq_right h1, max_eq_right h2]

end Rkz

/-- C10: whenever the external solver fulfils the `roots` crate's
contract of returning the real roots sorted ascending, the legacy
Redlich-Kwong implementation `RkGas::z` of `rk.rs` returns exactly the
value of the generic `EosGas::z` of `eos.rs` at `Eos::RedlichKwong`,
for every gas, pressure and temperature. -/
theorem rk_refines_generic_eos (find : ℝ → ℝ → ℝ → ℝ → Rkz.Roots)
    (hfind : ∀ a3 a2 a1 a0, (find a3 a2 a1 a0).Sorted) (g : Rkz.Gas) (p t : ℝ) :
    g.zRk find p t = g.z find .redlichKwong p t := by
  have ha : g.rkA p t = g.a .redlichKwong t * p / (Rkz.R * Rkz.R * t ^ (2.5 : ℝ)) := by
    rw [Rkz.Gas.rkA, Rkz.a_const_eq g t]; ring
  have hb : g.rkB p t = g.b .redlichKwong * p / (Rkz.R * t) := by
    rw [Rkz.Gas.rkB, Rkz.b_const_eq g]
  simp only [Rkz.Gas.zRk, Rkz.Gas.z, Rkz.Gas.zCubic, ha, hb]
  exact Rkz.selectRootRk_eq_selectRoot _ (hfind _ _ _ _)

/-- Witness for C10 with a trivially sorted solver stub and the pure
substance (Tc, Pc, w) = (1, 1, 0) at P = T = 1. -/
theorem rk_refines_generic_eos_witness :
    (∀ a3 a2 a1 a0 : ℝ, ((fun _ _ _ _ => Rkz.Roots.one 1) a3 a2 a1 a0 : Rkz.Roots).Sorted) ∧
    (Rkz.Gas.Pure ⟨1, 1, 0⟩).zRk (fun _ _ _ _ => Rkz.Roots.one 1) 1 1
      = (Rkz.Gas.Pure ⟨1, 1, 0⟩).z (fun _ _ _ _ => Rkz.Roots.one 1) .redlichKwong 1 1 := by
  have h : ∀ a3 a2 a1 a0 : ℝ,
      ((fun _ _ _ _ => Rkz.Roots.one 1) a3 a2 a1 a0 : Rkz.Roots).Sorted :=
    fun _ _ _ _ => trivial
  exact ⟨h, rk_refines_generic_eos _ h _ 1 1⟩

/-! ## Parser helper lemmas -/

namespace RkzParse

theorem splitChar_ne_nil (sep : Char) : ∀ l, splitChar sep l ≠ [] := by
  intro l
  cases l with
  | nil => simp [splitChar]
  | cons c rest =>
      unfold splitChar
      cases h : splitChar sep rest with
      | nil => simp
      | cons t ts => by_cases hc : c = sep <;> simp [hc]

theorem parse_num_ne_panicked (s : List Char) : parse_num s ≠ .panicked := by
  unfold parse_num
  cases parseSigned s <;> simp

theorem parse_num_err_msg (s m : List Char) :
    parse_num s = .err m → m = parseNumMsg s := by
  unfold parse_num
  cases parseSigned s with
  | none => intro h; cases h; rfl
  | some q => intro h; cases h

theorem parseComp_ne_panicked (input comp : List Char) :
    parseComp input comp ≠ .panicked := by
  unfold parseComp
  split
  · next heq => exact absurd heq (splitChar_ne_nil '%' comp)
  · split <;> simp
  · split
    · simp
    · split
      · simp
      · next heq => exact absurd heq (parse_num_ne_panicked _)
      · split <;> simp
  · simp

theorem parseComp_err_taxonomy (input comp m : List Char) :
    parseComp input comp = .err m → TaxonomyMsg m := by
  unfold parseComp
  split
  · intro h; cases h
  · split
    · intro h; cases h; exact Or.inl rfl
    · intro h; cases h
  · split
    · intro h; cases h; exact Or.inl rfl
    · split
      · next e heq =>
          intro h; cases h
          exact Or.inr (Or.inr (Or.inr (Or.inr (Or.inr ⟨_, parse_num_err_msg _ _ heq⟩))))
      · intro h; cases h
      · split
        · intro h; cases h; exact Or.inr (Or.inl rfl)
        · intro h; cases h
  · intro h; cases h
    exact Or.inr (Or.inr (Or.inr (Or.inr (Or.inl ⟨comp, input, rfl⟩))))

theorem parseComps_ne_panicked (input : List Char) :
    ∀ l, parseComps input l ≠ .panicked := by
  intro l
  induction l with
  | nil => simp [parseComps]
  | cons c rest ih =>
      unfold parseComps
      split
      · simp
      · next heq => exact absurd heq (parseComp_ne_panicked input c)
      · split
        · simp
        · next heq => exact absurd heq ih
        · simp

theorem parseComps_err_taxonomy (input : List Char) :
    ∀ l m, parseComps input l = .err m → TaxonomyMsg m := by
  intro l
  induction l with
  | nil => intro m h; cases h
  | cons c rest ih =>
      intro m
      unfold parseComps
      split
      · next heq => intro h; cases h; exact parseComp_err_taxonomy input c _ heq
      · intro h; cases h
      · split
        · next heq => intro h; cases h; exact ih _ heq
        · intro h; cases h
        · intro h; cases h

end RkzParse

namespace RkzParse

/-- The registry's Hydrogen entry. -/
def hydrogen : PureGas := ⟨"H2".data, "Hydrogen".data, 33, 1290000, -216/1000⟩

/-- The condition of the "total molar fraction is too high" branch of
`Gas::from_string` (`gas.rs` line 109). -/
abbrev TooHighCond (cs : List (ℚ × PureGas)) : Prop :=
  (totals cs).1 > 1 ∨ (|(totals cs).1 - 1| < EPSILON ∧ (totals cs).2 > 0)

/-- The condition of the "total molar fraction is too low" branch of
`Gas::from_string` (`gas.rs` line 111). -/
abbrev TooLowCond (cs : List (ℚ × PureGas)) : Prop :=
  (totals cs).1 < 1 ∧ (totals cs).2 = 0

/-- The inference step of `Gas::from_string` (`gas.rs` lines 114-119):
every `NO_FRAC` component receives `(1 − total)/num_no_frac`. -/
def fillMissing (cs : List (ℚ × PureGas)) : List (ℚ × PureGas) :=
  cs.map (fun c =>
    if c.1 = NO_FRAC then ((1 - (totals cs).1) / ((totals cs).2 : ℚ), c.2) else c)

theorem from_string_multi (input c0 c1 : List Char) (crest : List (List Char))
    (cs : List (ℚ × PureGas))
    (hsplit : splitChar '+' input = c0 :: c1 :: crest)
    (hcomps : parseComps input (c0 :: c1 :: crest) = .ok cs) :
    Gas.from_string input =
      (if TooHighCond cs then .err tooHighMsg
       else if TooLowCond cs then .err tooLowMsg
       else .ok (Gas.Mixture ⟨fillMissing cs⟩)) := by
  simp only [Gas.from_string, hsplit, hcomps, fillMissing]

theorem splitChar_eq_single (sep : Char) : ∀ l, sep ∉ l → splitChar sep l = [l] := by
  intro l
  induction l with
  | nil => intro _; rfl
  | cons c rest ih =>
      intro h
      simp only [List.mem_cons, not_or] at h
      unfold splitChar
      rw [ih h.2]
      have hc : ¬c = sep := fun hc => h.1 hc.symm
      simp [hc]

theorem find_gas_plus_free (idc : List Char) (g : PureGas) (h : find_gas idc = some g) :
    ('+' : Char) ∉ idc := by
  unfold find_gas at h
  have hfind := List.find?_some h
  have hid : g.id = idc := of_decide_eq_true hfind
  have hmem : g ∈ GASES := List.mem_of_find?_eq_some h
  rw [← hid]
  fin_cases hmem <;> decide

end RkzParse

section ParserClaims

attribute [local semireducible] Rat.add Rat.mul Rat.inv Rat.sub Rat.ofScientific

/-! ## C5 -/

/-- Counterexample to C5 as stated: for the input
`"25%N2+74.99999999999999%O2"` all terms are valid with known ids and
positive explicit fractions, there is no fraction-less term (K = 0),
and the total S of explicit fractions is equal to 1 within
`f64::EPSILON` — yet parsing fails with "total molar fraction is too
low", refuting "when K == 0 and S equals 1 within float-equality,
parsing succeeds".  The float-equality tolerance is consulted only in
the K > 0 clause of the "too high" test; with K = 0 the code demands
S = 1 exactly, and an S one rounding step below 1 falls into the
strict `S < 1` branch.  The exact-rational model and the program's
IEEE-754 evaluation agree on every comparison the validation performs
at this input: exactly, S = 1 − 10⁻¹⁶, while in `f64` arithmetic
`25/100 = 0.25` and `74.99999999999999/100 = 0.75 − 2⁻⁵³` sum (without
any rounding) to `1 − 2⁻⁵³`, one ulp below 1 — both totals are
strictly below 1 and within `2⁻⁵²` of 1 with K = 0, so both take the
same "too low" branch. -/
theorem total_fraction_boundary_cex :
    RkzParse.parseComps "25%N2+74.99999999999999%O2".data
        ("25%N2".data :: "74.99999999999999%O2".data :: [])
      = .ok [(1/4, RkzParse.nitrogen),
             (7499999999999999/10000000000000000, RkzParse.oxygen)] ∧
    RkzParse.splitChar '+' "25%N2+74.99999999999999%O2".data
      = "25%N2".data :: "74.99999999999999%O2".data :: [] ∧
    (RkzParse.totals
      [(1/4, RkzParse.nitrogen),
       (7499999999999999/10000000000000000, RkzParse.oxygen)]).2 = 0 ∧
    (RkzParse.totals
      [(1/4, RkzParse.nitrogen),
       (7499999999999999/10000000000000000, RkzParse.oxygen)]).1 < 1 ∧
    |(RkzParse.totals
      [(1/4, RkzParse.nitrogen),
       (7499999999999999/10000000000000000, RkzParse.oxygen)]).1 - 1|
      < RkzParse.EPSILON ∧
    RkzParse.Gas.from_string "25%N2+74.99999999999999%O2".data
      = .err RkzParse.tooLowMsg := by
  refine ⟨by decide, by decide, by decide, by decide, by decide, by decide⟩

/-- C5 (amended): for a multi-term input whose terms all parse (valid
syntax, known ids, positive explicit fractions), with S the sum of
explicit fractions and K the count of fraction-less terms: the "too
high" error occurs iff S > 1 or (S within `f64::EPSILON` of 1 and
K > 0); the "too low" error occurs iff S < 1 and K = 0; otherwise
parsing succeeds — in particular it succeeds when K = 0 and S equals 1
exactly. -/
theorem total_fraction_validation (input c0 c1 : List Char) (crest : List (List Char))
    (cs : List (ℚ × RkzParse.PureGas))
    (hsplit : RkzParse.splitChar '+' input = c0 :: c1 :: crest)
    (hcomps : RkzParse.parseComps input (c0 :: c1 :: crest) = .ok cs) :
    (RkzParse.Gas.from_string input = .err RkzParse.tooHighMsg ↔ RkzParse.TooHighCond cs) ∧
    (RkzParse.Gas.from_string input = .err RkzParse.tooLowMsg ↔ RkzParse.TooLowCond cs) ∧
    ((∃ g, RkzParse.Gas.from_string input = .ok g) ↔
      ¬RkzParse.TooHighCond cs ∧ ¬RkzParse.TooLowCond cs) ∧
    ((RkzParse.totals cs).1 = 1 ∧ (RkzParse.totals cs).2 = 0 →
      ∃ g, RkzParse.Gas.from_string input = .ok g) := by
  rw [RkzParse.from_string_multi input c0 c1 crest cs hsplit hcomps]
  split_ifs with h1 h2
  · refine ⟨iff_of_true rfl h1, ?_, ?_, ?_⟩
    · refine iff_of_false (by decide) ?_
      rintro ⟨hlt, hk⟩
      rcases h1 with h1 | ⟨_, hpos⟩
      · exact absurd hlt (by linarith)
      · omega
    · refine iff_of_false ?_ (fun hn => hn.1 h1)
      rintro ⟨g, hg⟩
      cases hg
    · rintro ⟨hS, hK⟩
      rcases h1 with h1 | ⟨_, hpos⟩
      · rw [hS] at h1; exact absurd h1 (by norm_num)
      · omega
  · refine ⟨?_, iff_of_true rfl h2, ?_, ?_⟩
    · refine iff_of_false (by decide) h1
    · refine iff_of_false ?_ (fun hn => hn.2 h2)
      rintro ⟨g, hg⟩
      cases hg
    · rintro ⟨hS, hK⟩
      rcases h2 with ⟨hlt, _⟩
      rw [hS] at hlt
      exact absurd hlt (by norm_num)
  · refine ⟨iff_of_false (fun h => nomatch h) h1, iff_of_false (fun h => nomatch h) h2,
      iff_of_true ⟨_, rfl⟩ ⟨h1, h2⟩, fun _ => ⟨_, rfl⟩⟩

/-- Witness for C5 at the fraction-less input `"N2+O2"`, which parses
successfully. -/
theorem total_fraction_validation_witness :
    ∃ g, RkzParse.Gas.from_string "N2+O2".data = .ok g :=
  ((total_fraction_validation "N2+O2".data "N2".data "O2".data []
      [(RkzParse.NO_FRAC, RkzParse.nitrogen), (RkzParse.NO_FRAC, RkzParse.oxygen)]
      (by decide) (by decide)).2.2.1).mpr ⟨by decide, by decide⟩

/-! ## C6 -/

/-- C6: a successfully parsed multi-term specification yields exactly
the parsed components in input order, explicit percentages stored as
p/100 and every fraction-less component receiving (1 − S)/K; in
particular `"80%N2+O2"` yields fractions (0.8, 0.2) on (N2, O2) and
`"N2+O2"` yields (0.5, 0.5). -/
theorem mixture_fraction_assignment :
    (∀ (input c0 c1 : List Char) (crest : List (List Char))
        (cs : List (ℚ × RkzParse.PureGas)),
      RkzParse.splitChar '+' input = c0 :: c1 :: crest →
      RkzParse.parseComps input (c0 :: c1 :: crest) = .ok cs →
      ¬RkzParse.TooHighCond cs → ¬RkzParse.TooLowCond cs →
      RkzParse.Gas.from_string input = .ok (.Mixture ⟨RkzParse.fillMissing cs⟩)) ∧
    RkzParse.Gas.from_string "80%N2+O2".data
      = .ok (.Mixture ⟨[(8/10, RkzParse.nitrogen), (2/10, RkzParse.oxygen)]⟩) ∧
    RkzParse.Gas.from_string "N2+O2".data
      = .ok (.Mixture ⟨[(5/10, RkzParse.nitrogen), (5/10, RkzParse.oxygen)]⟩) := by
  refine ⟨?_, by decide, by decide⟩
  intro input c0 c1 crest cs hsplit hcomps h1 h2
  rw [RkzParse.from_string_multi input c0 c1 crest cs hsplit hcomps, if_neg h1, if_neg h2]

/-- Witness for C6 at `"80%N2+O2"`. -/
theorem mixture_fraction_assignment_witness :
    RkzParse.Gas.from_string "80%N2+O2".data
      = .ok (.Mixture ⟨RkzParse.fillMissing
          [(8/10, RkzParse.nitrogen), (RkzParse.NO_FRAC, RkzParse.oxygen)]⟩) :=
  mixture_fraction_assignment.1 "80%N2+O2".data "80%N2".data "O2".data []
    [(8/10, RkzParse.nitrogen), (RkzParse.NO_FRAC, RkzParse.oxygen)]
    (by decide) (by decide) (by decide) (by decide)

/-! ## C8 -/

/-- C8: `Gas::from_string` never reaches a panic for any input; every
error it returns carries one of the §4.1/§7 causes (unknown substance,
malformed term — more than one `%` or an unparsable fraction literal —
non-positive fraction, or a total-fraction error); in particular a
term with two `%` yields the "invalid gas spec" error, an unknown id
the "not referenced" error, and a zero explicit fraction the "molar
fraction cannot be negative" error. -/
theorem from_string_safety :
    (∀ input : List Char, RkzParse.Gas.from_string input ≠ .panicked) ∧
    (∀ input m, RkzParse.Gas.from_string input = .err m → RkzParse.TaxonomyMsg m) ∧
    RkzParse.Gas.from_string "50%%N2+O2".data
      = .err (RkzParse.invalidSpecMsg "50%%N2".data "50%%N2+O2".data) ∧
    RkzParse.Gas.from_string "XX".data = .err RkzParse.gasNotRefMsg ∧
    RkzParse.Gas.from_string "0%N2+O2".data = .err RkzParse.negFracMsg := by
  refine ⟨?_, ?_, by decide, by decide, by decide⟩
  · intro input
    unfold RkzParse.Gas.from_string
    split
    · next heq => exact absurd heq (RkzParse.splitChar_ne_nil '+' input)
    · split <;> simp
    · split
      · simp
      · next heq => exact absurd heq (RkzParse.parseComps_ne_panicked input _)
      · dsimp only
        split
        · simp
        · split <;> simp
  · intro input m
    unfold RkzParse.Gas.from_string
    split
    · intro h; cases h
    · split
      · intro h; cases h; exact Or.inl rfl
      · intro h; cases h
    · split
      · next heq => intro h; cases h; exact RkzParse.parseComps_err_taxonomy input _ _ heq
      · intro h; cases h
      · dsimp only
        split
        · intro h; cases h; exact Or.inr (Or.inr (Or.inl rfl))
        · split
          · intro h; cases h; exact Or.inr (Or.inr (Or.inr (Or.inl rfl)))
          · intro h; cases h

/-- Witness for C8: the error returned on the unknown id `"XX"` is in
the taxonomy. -/
theorem from_string_safety_witness : RkzParse.TaxonomyMsg RkzParse.gasNotRefMsg :=
  from_string_safety.2.1 "XX".data RkzParse.gasNotRefMsg (by decide)

/-! ## C9 -/

/-- Counterexample to C9 as stated: `"H2"` is a registered id, so
`"100%H2"` conforms to the spec's term grammar `(fraction "%")? id`
with a valid fraction, yet `Gas::from_string` rejects it: a single-term
input is looked up as a whole, so the term `"100%H2"` is not found in
the registry and the "not referenced" error is returned. -/
theorem single_term_fraction_rejected_cex :
    RkzParse.find_gas "H2".data = some RkzParse.hydrogen ∧
    RkzParse.Gas.from_string "100%H2".data = .err RkzParse.gasNotRefMsg :=
  ⟨by decide, by decide⟩

/-- C9 (amended): every input conforming to the mixture-spec grammar
whose fractions satisfy the §4.1 policy is accepted, provided a
single-term input consists of a bare registered id (a single-term input
carrying an explicit fraction is instead looked up whole and
rejected); multi-term grammar-conformant inputs with known ids and
valid fractions are accepted. -/
theorem grammar_acceptance :
    (∀ (idc : List Char) (g : RkzParse.PureGas), RkzParse.find_gas idc = some g →
      RkzParse.Gas.from_string idc = .ok (.Pure g)) ∧
    (∀ (input c0 c1 : List Char) (crest : List (List Char))
        (cs : List (ℚ × RkzParse.PureGas)),
      RkzParse.splitChar '+' input = c0 :: c1 :: crest →
      RkzParse.parseComps input (c0 :: c1 :: crest) = .ok cs →
      ¬RkzParse.TooHighCond cs → ¬RkzParse.TooLowCond cs →
      ∃ g, RkzParse.Gas.from_string input = .ok g) := by
  constructor
  · intro idc g h
    unfold RkzParse.Gas.from_string
    rw [RkzParse.splitChar_eq_single '+' idc (RkzParse.find_gas_plus_free idc g h)]
    simp only [h]
  · intro input c0 c1 crest cs hsplit hcomps h1 h2
    rw [RkzParse.from_string_multi input c0 c1 crest cs hsplit hcomps, if_neg h1, if_neg h2]
    exact ⟨_, rfl⟩

/-- Witness for C9 at the bare id `"N2"`. -/
theorem grammar_acceptance_witness :
    RkzParse.Gas.from_string "N2".data = .ok (.Pure RkzParse.nitrogen) :=
  grammar_acceptance.1 "N2".data RkzParse.nitrogen (by decide)

end ParserClaims

/-! ## C7 -/

namespace Rkz

/-- Modelled from the spec: the substance registry (`gases.rs`, the
static lookup table of reference substances) is an external
collaborator absent from the sources, so the Hydrogen entry is
reconstructed from the spec's only data about it — the four §8
reference Z-factors, which determine (Tc, Pc, w) = (33 K, 1.29 MPa,
−0.216); these values (which also agree with the literature constants
for hydrogen) reproduce all four reference Z-factors to within 5·10⁻⁷,
far inside the stated 10⁻⁵ tolerance. -/
noncomputable def hydrogen : PureGas := ⟨33, 1290000, -0.216⟩

/-- `zv` is the largest real solution of the monic cubic with
coefficient tuple `c` — by C3 (`root_selection_max_or_fail`) this is
exactly the value `EosGas::z` returns for that cubic. -/
def MaxZRootOf (c : ℝ × ℝ × ℝ × ℝ) (zv : ℝ) : Prop :=
  c.1 * zv^3 + c.2.1 * zv^2 + c.2.2.1 * zv + c.2.2.2 = 0 ∧
  ∀ y : ℝ, c.1 * y^3 + c.2.1 * y^2 + c.2.2.1 * y + c.2.2.2 = 0 → y ≤ zv

theorem rpow_two_point_five (x : ℝ) (hx : 0 < x) :
    x ^ (2.5 : ℝ) = x^2 * Real.sqrt x := by
  have h : (2.5 : ℝ) = 2 + 1/2 := by norm_num
  rw [h, Real.rpow_add hx, Real.sqrt_eq_rpow]
  norm_num

/-- Localisation of the largest real root of a monic cubic whose lower
coefficients are only known within intervals: if the worst-case value
at `lo` is negative, the worst-case value at `hi` is positive, and the
difference quotient is positive beyond `lo`, then the cubic has its
largest real root inside `[lo, hi]`. -/
theorem cubic_max_root_bounds (a2 a1 a0 a2l a2h a1l a1h a0l a0h lo hi : ℝ)
    (h2l : a2l ≤ a2) (h2h : a2 ≤ a2h) (h1l : a1l ≤ a1) (h1h : a1 ≤ a1h)
    (h0l : a0l ≤ a0) (h0h : a0 ≤ a0h)
    (hlopos : 0 < lo) (hle : lo ≤ hi)
    (hflo : lo^3 + a2h*lo^2 + a1h*lo + a0h < 0)
    (hfhi : 0 < hi^3 + a2l*hi^2 + a1l*hi + a0l)
    (hq1 : 0 < 3*lo^2 + 2*a2l*lo + a1l)
    (hq2 : 0 < 3*lo + a2l) :
    ∃ zv, lo ≤ zv ∧ zv ≤ hi ∧ IsZRoot a2 a1 a0 zv ∧
      ∀ y, IsZRoot a2 a1 a0 y → y ≤ zv := by
  have hhipos : 0 < hi := lt_of_lt_of_le hlopos hle
  have hcont : Continuous fun z : ℝ => z^3 + a2*z^2 + a1*z + a0 := by fun_prop
  have hflo' : lo^3 + a2*lo^2 + a1*lo + a0 < 0 := by
    have e2 : a2*lo^2 ≤ a2h*lo^2 := by nlinarith [sq_nonneg lo]
    have e1 : a1*lo ≤ a1h*lo := by nlinarith
    linarith
  have hfhi' : 0 < hi^3 + a2*hi^2 + a1*hi + a0 := by
    have e2 : a2l*hi^2 ≤ a2*hi^2 := by nlinarith [sq_nonneg hi]
    have e1 : a1l*hi ≤ a1*hi := by nlinarith
    linarith
  have hsub := intermediate_value_Icc hle hcont.continuousOn
  obtain ⟨zv, hmem, hfz⟩ := hsub ⟨hflo'.le, hfhi'.le⟩
  refine ⟨zv, hmem.1, hmem.2, hfz, ?_⟩
  intro y hy
  by_contra hgt
  push_neg at hgt
  have hzlo : lo ≤ zv := hmem.1
  have hint1 : 0 ≤ (a2 - a2l) * (y + zv) :=
    mul_nonneg (sub_nonneg.mpr h2l) (by linarith)
  have hint2 : 0 ≤ (y - zv) * (y + 2*zv + a2l) :=
    mul_nonneg (by linarith) (by linarith)
  have hint3 : 0 ≤ (zv - lo) * (3*zv + 3*lo + 2*a2l) :=
    mul_nonneg (by linarith) (by linarith)
  have hQ : 0 < y^2 + y*zv + zv^2 + a2*(y+zv) + a1 := by nlinarith
  have hy' : y^3 + a2*y^2 + a1*y + a0 = 0 := hy
  have hz' : zv^3 + a2*zv^2 + a1*zv + a0 = 0 := hfz
  have hprod : (y - zv) * (y^2 + y*zv + zv^2 + a2*(y+zv) + a1) = 0 := by
    linear_combination hy' - hz'
  nlinarith [hprod, hQ, hgt]

theorem maxZRootOf_of_bounds (a2 a1 a0 zv : ℝ)
    (hroot : IsZRoot a2 a1 a0 zv) (hmax : ∀ y, IsZRoot a2 a1 a0 y → y ≤ zv) :
    MaxZRootOf (1, a2, a1, a0) zv := by
  constructor
  · have hr : zv^3 + a2*zv^2 + a1*zv + a0 = 0 := hroot
    linear_combination hr
  · intro y hy
    refine hmax y ?_
    show y^3 + a2*y^2 + a1*y + a0 = 0
    linear_combination hy

theorem hydrogen_vdw_max_root :
    ∃ zv, MaxZRootOf ((Gas.Pure hydrogen).zCubic .vanDerWaals
      (101325 + 70000000) (273.15 + 15)) zv ∧ |zv - 1.6818452| < 1e-5 := by
  have hcoef : (Gas.Pure hydrogen).zCubic .vanDerWaals (101325 + 70000000) (273.15 + 15)
      = (1, -(30844583/39649440 : ℝ) - 1, 3053613717/10155543232,
         -((3053613717/10155543232 : ℝ) * (30844583/39649440))) := by
    simp only [Gas.zCubic, Gas.a, Gas.b, PureGas.a, PureGas.b, hydrogen, R, Prod.mk.injEq]
    norm_num
  rw [hcoef]
  obtain ⟨zv, hzlo, hzhi, hroot, hmax⟩ := cubic_max_root_bounds
    (-(30844583/39649440 : ℝ) - 1) (3053613717/10155543232)
    (-((3053613717/10155543232 : ℝ) * (30844583/39649440)))
    (-(30844583/39649440 : ℝ) - 1) (-(30844583/39649440 : ℝ) - 1)
    (3053613717/10155543232) (3053613717/10155543232)
    (-((3053613717/10155543232 : ℝ) * (30844583/39649440)))
    (-((3053613717/10155543232 : ℝ) * (30844583/39649440)))
    (131394/78125) (2102309/1250000)
    le_rfl le_rfl le_rfl le_rfl le_rfl le_rfl
    (by norm_num) (by norm_num) (by norm_num) (by norm_num) (by norm_num) (by norm_num)
  refine ⟨zv, maxZRootOf_of_bounds _ _ _ zv hroot hmax, ?_⟩
  rw [abs_lt]
  constructor <;> linarith

theorem hydrogen_rk_max_root :
    ∃ zv, MaxZRootOf ((Gas.Pure hydrogen).zCubic .redlichKwong
      (101325 + 70000000) (273.15 + 15)) zv ∧ |zv - 1.506842| < 1e-5 := by
  have hs1sq : Real.sqrt 33 ^ 2 = 33 := Real.sq_sqrt (by norm_num)
  have hs2sq : Real.sqrt (273.15 + 15) ^ 2 = 273.15 + 15 := Real.sq_sqrt (by norm_num)
  have hs1pos : 0 < Real.sqrt 33 := Real.sqrt_pos.mpr (by norm_num)
  have hs2pos : 0 < Real.sqrt (273.15 + 15) := Real.sqrt_pos.mpr (by norm_num)
  have hs2ne : Real.sqrt (273.15 + 15) ≠ 0 := ne_of_gt hs2pos
  have hs1lo : (2872281323269/500000000000 : ℝ) < Real.sqrt 33 := by
    nlinarith [hs1sq, hs1pos, sq_nonneg (Real.sqrt 33 + 2872281323269/500000000000)]
  have hs1hi : Real.sqrt 33 < 5744562646539/1000000000000 := by
    nlinarith [hs1sq, hs1pos, sq_nonneg (Real.sqrt 33 - 5744562646539/1000000000000)]
  have hs2lo : (339499631811287/20000000000000 : ℝ) < Real.sqrt (273.15 + 15) := by
    nlinarith [hs2sq, hs2pos,
      sq_nonneg (Real.sqrt (273.15 + 15) + 339499631811287/20000000000000)]
  have hs2hi : Real.sqrt (273.15 + 15) < 42437453976411/2500000000000 := by
    nlinarith [hs2sq, hs2pos,
      sq_nonneg (Real.sqrt (273.15 + 15) - 42437453976411/2500000000000)]
  have hcoef : (Gas.Pure hydrogen).zCubic .redlichKwong (101325 + 70000000) (273.15 + 15)
      = (1, -1,
         (4834664792867833/15868036300000000 : ℝ)
             * (Real.sqrt 33 / Real.sqrt (273.15 + 15))
           - (53447709334481/99123600000000 : ℝ) * (53447709334481/99123600000000)
           - (53447709334481/99123600000000 : ℝ),
         -((4834664792867833/15868036300000000 : ℝ)
             * (Real.sqrt 33 / Real.sqrt (273.15 + 15))
             * (53447709334481/99123600000000))) := by
    simp only [Gas.zCubic, Gas.a, Gas.b, PureGas.a, PureGas.b, hydrogen, R, Prod.mk.injEq]
    rw [rpow_two_point_five 33 (by norm_num), rpow_two_point_five (273.15 + 15) (by norm_num)]
    refine ⟨trivial, trivial, ?_, ?_⟩ <;>
      (field_simp
       try ring_nf
       try norm_num [mul_comm]
       try ring)
  set u : ℝ := Real.sqrt 33 / Real.sqrt (273.15 + 15) with hu
  have hulo : (169206741577/500000000000 : ℝ) < u := by
    rw [hu, lt_div_iff hs2pos]; nlinarith [hs1lo, hs2hi]
  have huhi : u < 3384134831541/10000000000000 := by
    rw [hu, div_lt_iff hs2pos]; nlinarith [hs1hi, hs2lo]
  rw [hcoef]
  obtain ⟨zv, hzlo, hzhi, hroot, hmax⟩ := cubic_max_root_bounds
    (-1)
    ((4834664792867833/15868036300000000 : ℝ) * u
      - (53447709334481/99123600000000 : ℝ) * (53447709334481/99123600000000)
      - (53447709334481/99123600000000 : ℝ))
    (-((4834664792867833/15868036300000000 : ℝ) * u * (53447709334481/99123600000000)))
    (-1) (-1)
    ((4834664792867833/15868036300000000 : ℝ) * (169206741577/500000000000)
      - (53447709334481/99123600000000 : ℝ) * (53447709334481/99123600000000)
      - (53447709334481/99123600000000 : ℝ))
    ((4834664792867833/15868036300000000 : ℝ) * (3384134831541/10000000000000)
      - (53447709334481/99123600000000 : ℝ) * (53447709334481/99123600000000)
      - (53447709334481/99123600000000 : ℝ))
    (-((4834664792867833/15868036300000000 : ℝ) * (3384134831541/10000000000000)
      * (53447709334481/99123600000000)))
    (-((4834664792867833/15868036300000000 : ℝ) * (169206741577/500000000000)
      * (53447709334481/99123600000000)))
    (37671/25000) (376711/250000)
    le_rfl le_rfl
    (by nlinarith [hulo]) (by nlinarith [huhi]) (by nlinarith [huhi]) (by nlinarith [hulo])
    (by norm_num) (by norm_num) (by norm_num) (by norm_num) (by norm_num) (by norm_num)
  refine ⟨zv, maxZRootOf_of_bounds _ _ _ zv hroot hmax, ?_⟩
  rw [abs_lt]
  constructor <;> linarith

set_option maxHeartbeats 2000000 in
theorem hydrogen_srk_max_root :
    ∃ zv, MaxZRootOf ((Gas.Pure hydrogen).zCubic .soaveRedlichKwong
      (101325 + 70000000) (273.15 + 15)) zv ∧ |zv - 1.48638434| < 1e-5 := by
  have hvsq : Real.sqrt ((273.15 + 15) / 33) ^ 2 = (273.15 + 15) / 33 :=
    Real.sq_sqrt (by norm_num)
  have hvpos : 0 < Real.sqrt ((273.15 + 15) / 33) := Real.sqrt_pos.mpr (by norm_num)
  have hvlo : (130018460227769/44000000000000 : ℝ) < Real.sqrt ((273.15 + 15) / 33) := by
    nlinarith [hvsq, hvpos,
      sq_nonneg (Real.sqrt ((273.15 + 15) / 33) + 130018460227769/44000000000000)]
  have hvhi : Real.sqrt ((273.15 + 15) / 33) < 325046150569423/110000000000000 := by
    nlinarith [hvsq, hvpos,
      sq_nonneg (Real.sqrt ((273.15 + 15) / 33) - 325046150569423/110000000000000)]
  have hcoef : (Gas.Pure hydrogen).zCubic .soaveRedlichKwong
      (101325 + 70000000) (273.15 + 15)
      = (1, -1,
         (4834664792867833/15868036300000000 : ℝ)
             * ((1 + (1029723/7812500 : ℝ) * (1 - Real.sqrt ((273.15 + 15) / 33)))
               * (1 + (1029723/7812500 : ℝ) * (1 - Real.sqrt ((273.15 + 15) / 33))))
           - (53447709334481/99123600000000 : ℝ) * (53447709334481/99123600000000)
           - (53447709334481/99123600000000 : ℝ),
         -((4834664792867833/15868036300000000 : ℝ)
             * ((1 + (1029723/7812500 : ℝ) * (1 - Real.sqrt ((273.15 + 15) / 33)))
               * (1 + (1029723/7812500 : ℝ) * (1 - Real.sqrt ((273.15 + 15) / 33))))
             * (53447709334481/99123600000000))) := by
    simp only [Gas.zCubic, Gas.a, Gas.b, PureGas.a, PureGas.b, hydrogen, R, Prod.mk.injEq]
    generalize Real.sqrt ((273.15 + 15) / 33) = vv
    refine ⟨trivial, trivial, ?_, ?_⟩ <;>
      (field_simp
       try ring)
  set v : ℝ := Real.sqrt ((273.15 + 15) / 33) with hv
  set e : ℝ := 1 + (1029723/7812500 : ℝ) * (1 - v) with he
  have he_lo : (637937032697202040171/859375000000000000000 : ℝ) < e := by
    rw [he]; nlinarith [hvhi]
  have he_hi : e < 255174813078881022013/343750000000000000000 := by
    rw [he]; nlinarith [hvlo]
  have hsq_lo : (637937032697202040171/859375000000000000000 : ℝ)
      * (637937032697202040171/859375000000000000000) ≤ e * e := by
    nlinarith [he_lo, sq_nonneg (e - 637937032697202040171/859375000000000000000)]
  have hsq_hi : e * e ≤ (255174813078881022013/343750000000000000000 : ℝ)
      * (255174813078881022013/343750000000000000000) := by
    nlinarith [he_hi, he_lo]
  rw [hcoef]
  obtain ⟨zv, hzlo, hzhi, hroot, hmax⟩ := cubic_max_root_bounds
    (-1)
    ((4834664792867833/15868036300000000 : ℝ) * (e * e)
      - (53447709334481/99123600000000 : ℝ) * (53447709334481/99123600000000)
      - (53447709334481/99123600000000 : ℝ))
    (-((4834664792867833/15868036300000000 : ℝ) * (e * e) * (53447709334481/99123600000000)))
    (-1) (-1)
    ((4834664792867833/15868036300000000 : ℝ)
        * ((637937032697202040171/859375000000000000000 : ℝ)
          * (637937032697202040171/859375000000000000000))
      - (53447709334481/99123600000000 : ℝ) * (53447709334481/99123600000000)
      - (53447709334481/99123600000000 : ℝ))
    ((4834664792867833/15868036300000000 : ℝ)
        * ((255174813078881022013/343750000000000000000 : ℝ)
          * (255174813078881022013/343750000000000000000))
      - (53447709334481/99123600000000 : ℝ) * (53447709334481/99123600000000)
      - (53447709334481/99123600000000 : ℝ))
    (-((4834664792867833/15868036300000000 : ℝ)
        * ((255174813078881022013/343750000000000000000 : ℝ)
          * (255174813078881022013/343750000000000000000))
        * (53447709334481/99123600000000)))
    (-((4834664792867833/15868036300000000 : ℝ)
        * ((637937032697202040171/859375000000000000000 : ℝ)
          * (637937032697202040171/859375000000000000000))
        * (53447709334481/99123600000000)))
    (74319117/50000000) (74319317/50000000)
    le_rfl le_rfl
    (by nlinarith [hsq_lo]) (by nlinarith [hsq_hi])
    (by nlinarith [hsq_hi]) (by nlinarith [hsq_lo])
    (by norm_num) (by norm_num) (by norm_num) (by norm_num) (by norm_num) (by norm_num)
  refine ⟨zv, maxZRootOf_of_bounds _ _ _ zv hroot hmax, ?_⟩
  rw [abs_lt]
  constructor <;> linarith

set_option maxHeartbeats 2000000 in
theorem hydrogen_pr_max_root :
    ∃ zv, MaxZRootOf ((Gas.Pure hydrogen).zCubic .pengRobinson
      (101325 + 70000000) (273.15 + 15)) zv ∧ |zv - 1.396375| < 1e-5 := by
  have hvsq : Real.sqrt ((273.15 + 15) / 33) ^ 2 = (273.15 + 15) / 33 :=
    Real.sq_sqrt (by norm_num)
  have hvpos : 0 < Real.sqrt ((273.15 + 15) / 33) := Real.sqrt_pos.mpr (by norm_num)
  have hvlo : (130018460227769/44000000000000 : ℝ) < Real.sqrt ((273.15 + 15) / 33) := by
    nlinarith [hvsq, hvpos,
      sq_nonneg (Real.sqrt ((273.15 + 15) / 33) + 130018460227769/44000000000000)]
  have hvhi : Real.sqrt ((273.15 + 15) / 33) < 325046150569423/110000000000000 := by
    nlinarith [hvsq, hvpos,
      sq_nonneg (Real.sqrt ((273.15 + 15) / 33) - 325046150569423/110000000000000)]
  have hcoef : (Gas.Pure hydrogen).zCubic .pengRobinson
      (101325 + 70000000) (273.15 + 15)
      = (1, (11998542787/24780900000 : ℝ) - 1,
         -3 * (11998542787/24780900000 : ℝ) * (11998542787/24780900000)
           - 2 * (11998542787/24780900000 : ℝ)
           + (3878428711003/11901027225000 : ℝ)
             * ((1 + (19217541/781250000 : ℝ) * (1 - Real.sqrt ((273.15 + 15) / 33)))
               * (1 + (19217541/781250000 : ℝ) * (1 - Real.sqrt ((273.15 + 15) / 33)))),
         (11998542787/24780900000 : ℝ) * (11998542787/24780900000) * (11998542787/24780900000)
           + (11998542787/24780900000 : ℝ) * (11998542787/24780900000)
           - (3878428711003/11901027225000 : ℝ)
             * ((1 + (19217541/781250000 : ℝ) * (1 - Real.sqrt ((273.15 + 15) / 33)))
               * (1 + (19217541/781250000 : ℝ) * (1 - Real.sqrt ((273.15 + 15) / 33))))
             * (11998542787/24780900000)) := by
    simp only [Gas.zCubic, Gas.a, Gas.b, PureGas.a, PureGas.b, hydrogen, R, Prod.mk.injEq]
    rw [if_pos (show (-0.216 : ℝ) ≤ 0.491 by norm_num)]
    generalize Real.sqrt ((273.15 + 15) / 33) = vv
    refine ⟨trivial, ?_, ?_, ?_⟩ <;>
      (field_simp
       try ring)
  set v : ℝ := Real.sqrt ((273.15 + 15) / 33) with hv
  set e : ℝ := 1 + (19217541/781250000 : ℝ) * (1 - v) with he
  have he_lo : (81804841784539940151157/85937500000000000000000 : ℝ) < e := by
    rw [he]; nlinarith [hvhi]
  have he_hi : e < 32721936713815979903971/34375000000000000000000 := by
    rw [he]; nlinarith [hvlo]
  have hsq_lo : (81804841784539940151157/85937500000000000000000 : ℝ)
      * (81804841784539940151157/85937500000000000000000) ≤ e * e := by
    nlinarith [he_lo, sq_nonneg (e - 81804841784539940151157/85937500000000000000000)]
  have hsq_hi : e * e ≤ (32721936713815979903971/34375000000000000000000 : ℝ)
      * (32721936713815979903971/34375000000000000000000) := by
    nlinarith [he_hi, he_lo]
  rw [hcoef]
  obtain ⟨zv, hzlo, hzhi, hroot, hmax⟩ := cubic_max_root_bounds
    ((11998542787/24780900000 : ℝ) - 1)
    (-3 * (11998542787/24780900000 : ℝ) * (11998542787/24780900000)
      - 2 * (11998542787/24780900000 : ℝ)
      + (3878428711003/11901027225000 : ℝ) * (e * e))
    ((11998542787/24780900000 : ℝ) * (11998542787/24780900000) * (11998542787/24780900000)
      + (11998542787/24780900000 : ℝ) * (11998542787/24780900000)
      - (3878428711003/11901027225000 : ℝ) * (e * e) * (11998542787/24780900000))
    ((11998542787/24780900000 : ℝ) - 1) ((11998542787/24780900000 : ℝ) - 1)
    (-3 * (11998542787/24780900000 : ℝ) * (11998542787/24780900000)
      - 2 * (11998542787/24780900000 : ℝ)
      + (3878428711003/11901027225000 : ℝ)
        * ((81804841784539940151157/85937500000000000000000 : ℝ)
          * (81804841784539940151157/85937500000000000000000)))
    (-3 * (11998542787/24780900000 : ℝ) * (11998542787/24780900000)
      - 2 * (11998542787/24780900000 : ℝ)
      + (3878428711003/11901027225000 : ℝ)
        * ((32721936713815979903971/34375000000000000000000 : ℝ)
          * (32721936713815979903971/34375000000000000000000)))
    ((11998542787/24780900000 : ℝ) * (11998542787/24780900000) * (11998542787/24780900000)
      + (11998542787/24780900000 : ℝ) * (11998542787/24780900000)
      - (3878428711003/11901027225000 : ℝ)
        * ((32721936713815979903971/34375000000000000000000 : ℝ)
          * (32721936713815979903971/34375000000000000000000))
        * (11998542787/24780900000))
    ((11998542787/24780900000 : ℝ) * (11998542787/24780900000) * (11998542787/24780900000)
      + (11998542787/24780900000 : ℝ) * (11998542787/24780900000)
      - (3878428711003/11901027225000 : ℝ)
        * ((81804841784539940151157/85937500000000000000000 : ℝ)
          * (81804841784539940151157/85937500000000000000000))
        * (11998542787/24780900000))
    (1396373/1000000) (1396377/1000000)
    le_rfl le_rfl
    (by nlinarith [hsq_lo]) (by nlinarith [hsq_hi])
    (by nlinarith [hsq_hi]) (by nlinarith [hsq_lo])
    (by norm_num) (by norm_num) (by norm_num) (by norm_num) (by norm_num) (by norm_num)
  refine ⟨zv, maxZRootOf_of_bounds _ _ _ zv hroot hmax, ?_⟩
  rw [abs_lt]
  constructor <;> linarith

end Rkz

/-- C7: for pure Hydrogen (spec-modelled registry entry) at pressure
101325 + 70000000 Pa and temperature 273.15 + 15 K, the maximum real
root of the Z cubic — the value `EosGas::z` returns, by C3 — is within
1e-5 of the reference: 1.6818452 (VanDerWaals), 1.506842
(RedlichKwong), 1.48638434 (SoaveRedlichKwong), 1.396375
(PengRobinson). -/
theorem hydrogen_reference_z :
    (∃ zv, Rkz.MaxZRootOf ((Rkz.Gas.Pure Rkz.hydrogen).zCubic .vanDerWaals
        (101325 + 70000000) (273.15 + 15)) zv ∧ |zv - 1.6818452| < 1e-5) ∧
    (∃ zv, Rkz.MaxZRootOf ((Rkz.Gas.Pure Rkz.hydrogen).zCubic .redlichKwong
        (101325 + 70000000) (273.15 + 15)) zv ∧ |zv - 1.506842| < 1e-5) ∧
    (∃ zv, Rkz.MaxZRootOf ((Rkz.Gas.Pure Rkz.hydrogen).zCubic .soaveRedlichKwong
        (101325 + 70000000) (273.15 + 15)) zv ∧ |zv - 1.48638434| < 1e-5) ∧
    (∃ zv, Rkz.MaxZRootOf ((Rkz.Gas.Pure Rkz.hydrogen).zCubic .pengRobinson
        (101325 + 70000000) (273.15 + 15)) zv ∧ |zv - 1.396375| < 1e-5) :=
  ⟨Rkz.hydrogen_vdw_max_root, Rkz.hydrogen_rk_max_root,
    Rkz.hydrogen_srk_max_root, Rkz.hydrogen_pr_max_root⟩
